import Mathlib

/-!
Verification development for the uae-work-hub repository.

Part 1 embeds, from `src/apps/web/src/lib/utils.ts` (re-exported through
`src/apps/web/src/test/setup.ts`), the pure helper functions
`isDuringPrayerTime`, `toArabicNumbers`, `containsArabic` and
`getTextDirection`.

The source `isDuringPrayerTime(): boolean` takes no arguments: it reads the
global clock (`const now = new Date()`) and computes
`currentTime = now.getHours() * 60 + now.getMinutes()`.  The shallow
embedding makes that effect explicit: the clock state it consumes — the
minutes-of-day value `currentTime` — becomes the explicit argument
`clockMinutes`.

Part 2 models, from the words of `spec.md` (the Cultural Scheduling
Conflict Engine is specified there but absent from `src/`), the Temporal
Interval Library, the Conflict Evaluator, window construction and the
Batch Scan Service.
-/

namespace UaeWorkHub

/-- Anchor minutes-of-day of the five prayer times hard-coded in
`isDuringPrayerTime`: fajr 5:15, dhuhr 12:15, asr 15:30, maghrib 18:45,
isha 20:00.  (The exported `mockPrayerTimes` table additionally lists
sunrise 6:35, which this function does not use.) -/
def prayerTimes : List Nat := [5 * 60 + 15, 12 * 60 + 15, 15 * 60 + 30, 18 * 60 + 45, 20 * 60 + 0]

/-- The sunrise entry (6:35) of the exported `mockPrayerTimes` table. -/
def sunriseMinutes : Nat := 6 * 60 + 35

/-- The source constant `const buffer = 15`. -/
def buffer : Nat := 15

/-- The per-anchor comparison `Math.abs(currentTime - prayerTime) <= buffer`
from the source (line 121 of the utils module). -/
def withinBuffer (currentTime prayerTime : Int) : Bool :=
  decide ((currentTime - prayerTime).natAbs ≤ buffer)

/-- Embedding of `isDuringPrayerTime`.  `clockMinutes` is the value
`now.getHours() * 60 + now.getMinutes()` that the source reads from the
global clock. -/
def isDuringPrayerTime (clockMinutes : Nat) : Bool :=
  prayerTimes.any (fun prayerTime => withinBuffer (clockMinutes : Int) (prayerTime : Int))

/-- The Arabic-Indic digit table `arabicDigits` from `toArabicNumbers`. -/
def arabicDigits : List Char := ['٠', '١', '٢', '٣', '٤', '٥', '٦', '٧', '٨', '٩']

/-- Per-character action of `String(num).replace(/\d/g, (d) => arabicDigits[parseInt(d)])`:
an ASCII digit is replaced by the Arabic-Indic digit at its value; every
other character is left alone by the regex. -/
def toArabicChar (c : Char) : Char :=
  if ('0' : Char) ≤ c ∧ c ≤ ('9' : Char) then arabicDigits.getD (c.toNat - 48) c else c

/-- Embedding of `toArabicNumbers` on its string input. -/
def toArabicNumbers (s : String) : String :=
  String.mk (s.data.map toArabicChar)

/-- Character test of the regex
`/[؀-ۿݐ-ݿࢠ-ࣿﭐ-﷿ﹰ-﻿]/`
from `containsArabic`. -/
def isArabicChar (c : Char) : Bool :=
  decide ((0x600 ≤ c.toNat ∧ c.toNat ≤ 0x6FF) ∨ (0x750 ≤ c.toNat ∧ c.toNat ≤ 0x77F) ∨
    (0x8A0 ≤ c.toNat ∧ c.toNat ≤ 0x8FF) ∨ (0xFB50 ≤ c.toNat ∧ c.toNat ≤ 0xFDFF) ∨
    (0xFE70 ≤ c.toNat ∧ c.toNat ≤ 0xFEFF))

/-- Embedding of `containsArabic`: the regex `test` succeeds iff some
character of the string is in one of the Arabic ranges. -/
def containsArabic (s : String) : Bool :=
  s.data.any isArabicChar

/-- Text direction values of `getTextDirection`. -/
inductive Dir where
  | ltr
  | rtl
deriving DecidableEq, Repr

/-- Embedding of `getTextDirection`: `containsArabic(text) ? 'rtl' : 'ltr'`. -/
def getTextDirection (s : String) : Dir :=
  if containsArabic s then Dir.rtl else Dir.ltr

/-!
Part 2: the Cultural Scheduling Conflict Engine.  The repository contains
only the design of this engine (spec sections 3–7); no implementation is
under `src/`, so the definitions below are modelled from the spec's words.
Timestamps are minutes on a single absolute (UTC-normalized) scale, as
the spec requires every comparison to normalize to one reference zone.
-/

/-- Modelled from the spec: severity values of a Policy
(`Block`, `Warn`, `AdjustDuration`). -/
inductive Severity where
  | Block
  | Warn
  | AdjustDuration
deriving DecidableEq, Repr

/-- Modelled from the spec: the ObservanceCategory enumeration. -/
inductive ObservanceCategory where
  | PrayerWindow
  | NationalHoliday
  | NationalityHoliday
  | RamadanPeriod
deriving DecidableEq, Repr

/-- Modelled from the spec: a TimeWindow `{start, end, zone}`.  `end` is a
reserved word in Lean, so the field is named `stop`.  Timestamps are
minutes on an absolute UTC-normalized scale; `zone` is the carried IANA
identifier. -/
structure TimeWindow where
  start : Int
  stop : Int
  zone : String
deriving DecidableEq, Repr

/-- Modelled from the spec: `overlaps(a, b)` is true iff
`a.start < b.end` and `b.start < a.end` — half-open semantics. -/
def overlaps (a b : TimeWindow) : Bool :=
  decide (a.start < b.stop ∧ b.start < a.stop)

/-- Modelled from the spec: `expandWithBuffer(w, before, after)`. -/
def expandWithBuffer (w : TimeWindow) (before after : Int) : TimeWindow :=
  ⟨w.start - before, w.stop + after, w.zone⟩

/-- Modelled from the spec: a Policy
`{severity, bufferBefore, bufferAfter, maxDurationOverride}`. -/
structure Policy where
  severity : Severity
  bufferBefore : Int
  bufferAfter : Int
  maxDurationOverride : Option Int
deriving DecidableEq, Repr

/-- Modelled from the spec: an ObservanceInstance
`{window, category, policy, sourceRuleId}`, the concretized output of
recurrence expansion. -/
structure ObservanceInstance where
  window : TimeWindow
  category : ObservanceCategory
  policy : Policy
  sourceRuleId : Nat
deriving DecidableEq, Repr

/-- Modelled from the spec: an instance's window expanded by its own
policy's buffers, the window the Conflict Evaluator compares against. -/
def bufferedWindow (i : ObservanceInstance) : TimeWindow :=
  expandWithBuffer i.window i.policy.bufferBefore i.policy.bufferAfter

/-- Modelled from the spec: ConflictDecision outcomes. -/
inductive Outcome where
  | Allowed
  | AllowedWithWarning
  | AdjustedWindow (newWindow : TimeWindow)
  | Blocked
deriving DecidableEq, Repr

/-- Modelled from the spec: a ConflictDecision
`{window, conflicts, outcome}`. -/
structure ConflictDecision where
  window : TimeWindow
  conflicts : List ObservanceInstance
  outcome : Outcome
deriving DecidableEq, Repr

/-- Rank used for the tie-break ordering of conflicts: severity descending
means Block before Warn before AdjustDuration. -/
def severityRank : Severity → Nat
  | Severity.Block => 0
  | Severity.Warn => 1
  | Severity.AdjustDuration => 2

/-- Modelled from the spec: the deterministic ordering of `conflicts` —
window start ascending, ties broken by severity descending. -/
def conflictLE (a b : ObservanceInstance) : Bool :=
  decide (a.window.start < b.window.start) ||
    (decide (a.window.start = b.window.start) &&
      decide (severityRank a.policy.severity ≤ severityRank b.policy.severity))

/-- Insertion step of the conflict sort. -/
def insertConflict (x : ObservanceInstance) : List ObservanceInstance → List ObservanceInstance
  | [] => [x]
  | y :: ys => if conflictLE x y then x :: y :: ys else y :: insertConflict x ys

/-- Insertion sort realizing the spec's deterministic conflict ordering. -/
def sortConflicts : List ObservanceInstance → List ObservanceInstance
  | [] => []
  | x :: xs => insertConflict x (sortConflicts xs)

/-- Modelled from the spec (Ramadan Policy Adjuster): the
`maxDurationOverride` limits of the RamadanPeriod instances the proposed
window falls inside. -/
def ramadanLimits (w : TimeWindow) (insts : List ObservanceInstance) : List Int :=
  (insts.filter (fun i =>
      decide (i.category = ObservanceCategory.RamadanPeriod) && overlaps i.window w)).filterMap
    (fun i => i.policy.maxDurationOverride)

/-- Modelled from the spec: step 1 of the Conflict Evaluator.  When the
window falls inside a Ramadan period and exceeds the (stricter, i.e.
minimum) duration limit, the window is trimmed to that limit; otherwise it
is unchanged. -/
def checkedWindow (w : TimeWindow) (insts : List ObservanceInstance) : TimeWindow :=
  match (ramadanLimits w insts).min? with
  | some limit => if decide (w.stop - w.start > limit) then ⟨w.start, w.start + limit, w.zone⟩ else w
  | none => w

/-- Modelled from the spec: step 2 of the Conflict Evaluator — the
observance instances whose buffer-expanded windows overlap the (possibly
trimmed) proposed window. -/
def conflictsOf (w : TimeWindow) (insts : List ObservanceInstance) : List ObservanceInstance :=
  insts.filter (fun i => overlaps (bufferedWindow i) (checkedWindow w insts))

/-- Modelled from the spec: steps 4–6 of the Conflict Evaluator.  Block
dominates; else any Warn yields AllowedWithWarning; else Allowed, or
AdjustedWindow when step 1 trimmed the window. -/
def outcomeOf (w : TimeWindow) (insts : List ObservanceInstance) : Outcome :=
  if (conflictsOf w insts).any (fun i => decide (i.policy.severity = Severity.Block)) then
    Outcome.Blocked
  else if (conflictsOf w insts).any (fun i => decide (i.policy.severity = Severity.Warn)) then
    Outcome.AllowedWithWarning
  else if checkedWindow w insts = w then Outcome.Allowed
  else Outcome.AdjustedWindow (checkedWindow w insts)

/-- Modelled from the spec: `evaluate(window, catalog instances)`, with the
attendee-filtered, recurrence-expanded catalog abstracted as the list of
ObservanceInstances it yields for the query window. -/
def evaluate (w : TimeWindow) (insts : List ObservanceInstance) : ConflictDecision :=
  ⟨checkedWindow w insts, sortConflicts (conflictsOf w insts), outcomeOf w insts⟩

/-- Modelled from the spec: the engine's error taxonomy (the parts the
claims exercise). -/
inductive EngineError where
  | InvalidWindow
  | CatalogUnavailable
deriving DecidableEq, Repr

/-- Modelled from the spec: the zone identifiers the core recognizes. -/
def recognizedZones : List String := ["Asia/Dubai", "UTC"]

/-- Modelled from the spec: TimeWindow construction, which rejects
`start ≥ end` or an unrecognized zone with InvalidWindow; no other
operation builds windows from raw data. -/
def mkTimeWindow (start stop : Int) (zone : String) : Except EngineError TimeWindow :=
  if decide (start < stop) && recognizedZones.contains zone then
    Except.ok ⟨start, stop, zone⟩
  else
    Except.error EngineError.InvalidWindow

/-- Modelled from the spec: response of `POST /schedule/check` — an HTTP
status and, on success, the decision. -/
structure CheckResponse where
  status : Nat
  decision : Option ConflictDecision
deriving DecidableEq, Repr

/-- Modelled from the spec: the `/schedule/check` boundary.  A window that
fails construction yields a 400 and evaluation is never applied;
otherwise evaluation runs on the constructed window. -/
def scheduleCheck (start stop : Int) (zone : String) (insts : List ObservanceInstance) :
    CheckResponse :=
  match mkTimeWindow start stop zone with
  | Except.error _ => ⟨400, none⟩
  | Except.ok w => ⟨200, some (evaluate w insts)⟩

/-- Modelled from the spec: a booking handed to the Batch Scan Service. -/
structure Booking where
  id : Nat
  window : TimeWindow
  nationalityTags : List String
deriving DecidableEq, Repr

/-- Modelled from the spec: evaluation of one booking, with the injected
catalog expansion (prayer-time provider / lunar converter) as a fallible
collaborator; its failure makes this booking's result a distinguishable
error entry. -/
def evalBooking (expand : TimeWindow → Except String (List ObservanceInstance))
    (b : Booking) : Except String ConflictDecision :=
  match expand b.window with
  | Except.error e => Except.error e
  | Except.ok insts => Except.ok (evaluate b.window insts)

/-- Modelled from the spec: `rescan(bookings, catalog)` — each booking is
evaluated independently and the results are reported in the caller's
input order, one entry per booking. -/
def rescan (expand : TimeWindow → Except String (List ObservanceInstance))
    (bookings : List Booking) : List (Nat × Except String ConflictDecision) :=
  bookings.map (fun b => (b.id, evalBooking expand b))

/-- The spec's concrete scenario: a PrayerWindow instance anchored at
12:15 Dubai time (minute 735) whose policy is Block with 15-minute
buffers on both sides, so its buffered window is [12:00, 12:30). -/
def dhuhrInstance : ObservanceInstance :=
  ⟨⟨735, 735, "Asia/Dubai"⟩, ObservanceCategory.PrayerWindow,
    ⟨Severity.Block, 15, 15, none⟩, 1⟩

/-- The spec's concrete scenario: the proposed 12:00–12:10 Dubai meeting
window. -/
def noonMeeting : TimeWindow := ⟨720, 730, "Asia/Dubai"⟩

/-- A Block-severity NationalHoliday instance used as a concrete witness
input. -/
def holidayInstance : ObservanceInstance :=
  ⟨⟨1000, 1100, "UTC"⟩, ObservanceCategory.NationalHoliday,
    ⟨Severity.Block, 0, 0, none⟩, 2⟩

/-- A Warn-severity instance overlapping the same range, used to check
that Block dominates Warn. -/
def warnInstance : ObservanceInstance :=
  ⟨⟨1000, 1100, "UTC"⟩, ObservanceCategory.PrayerWindow,
    ⟨Severity.Warn, 0, 0, none⟩, 3⟩

/-- A concrete injected expansion collaborator for the batch-scan
witness: it fails (lunar-converter style) on windows starting before the
epoch and succeeds with an empty instance list otherwise. -/
def demoExpand : TimeWindow → Except String (List ObservanceInstance) :=
  fun w => if w.start < 0 then Except.error "unresolvable year" else Except.ok []

/-- Concrete bookings for the batch-scan witness; the middle one makes
`demoExpand` fail. -/
def demoBookings : List Booking :=
  [⟨1, ⟨0, 10, "UTC"⟩, []⟩, ⟨2, ⟨-5, 10, "UTC"⟩, []⟩, ⟨3, ⟨20, 30, "UTC"⟩, []⟩]

/-!
Theorems settling the claims.
-/

/-- C8 (confirmed): `isDuringPrayerTime` returns true exactly when the
clock's minutes-of-day lies within 15 minutes inclusive of one of the
five anchors 5:15 (315), 12:15 (735), 15:30 (930), 18:45 (1125), 20:00
(1200) — i.e. in one of the closed intervals [300,330], [720,750],
[915,945], [1110,1140], [1185,1215] — and every time within 15 minutes
of the sunrise entry 6:35 (395) of the exported table is never flagged. -/
theorem isDuringPrayerTime_iff_near_anchor (t : Nat) :
    (isDuringPrayerTime t = true ↔
      (300 ≤ t ∧ t ≤ 330) ∨ (720 ≤ t ∧ t ≤ 750) ∨ (915 ≤ t ∧ t ≤ 945) ∨
        (1110 ≤ t ∧ t ≤ 1140) ∨ (1185 ≤ t ∧ t ≤ 1215)) ∧
    (((t : Int) - (sunriseMinutes : Int)).natAbs ≤ 15 → isDuringPrayerTime t = false) := by
  constructor
  · simp only [isDuringPrayerTime, prayerTimes, withinBuffer, buffer, List.any_cons,
      List.any_nil, Bool.or_eq_true, Bool.or_false, decide_eq_true_eq]
    omega
  · intro h
    simp only [isDuringPrayerTime, prayerTimes, withinBuffer, buffer, List.any_cons,
      List.any_nil, Bool.or_eq_false_iff, Bool.or_false, decide_eq_false_iff_not,
      sunriseMinutes] at *
    omega

/-- C8 witness: the sunrise time itself, 6:35 (minute 395), is not
flagged. -/
theorem isDuringPrayerTime_sunrise_witness : isDuringPrayerTime 395 = false :=
  (isDuringPrayerTime_iff_near_anchor 395).2 (by decide)

/-- C9 (confirmed): `toArabicNumbers` is a length-preserving character
map — the output has the same length as the input, position `i` of the
output is the per-character translation of position `i` of the input,
every character outside the ASCII digit range is left unchanged, and the
ten ASCII digits map to the corresponding Arabic-Indic digits. -/
theorem toArabicNumbers_char_map (s : String) :
    (toArabicNumbers s).length = s.length ∧
    (∀ i : Nat, (toArabicNumbers s).data.get? i = (s.data.get? i).map toArabicChar) ∧
    (∀ c : Char, ¬(('0' : Char) ≤ c ∧ c ≤ ('9' : Char)) → toArabicChar c = c) ∧
    "0123456789".data.map toArabicChar = arabicDigits := by
  refine ⟨?_, ?_, ?_, ?_⟩
  · show (s.data.map toArabicChar).length = s.data.length
    simp
  · intro i
    simp [toArabicNumbers]
  · intro c hc
    simp [toArabicChar, hc]
  · decide

/-- C9 witness: a non-digit (Arabic letter alef) is left unchanged, at a
concrete input string. -/
theorem toArabicNumbers_nondigit_witness : toArabicChar ('ا' : Char) = ('ا' : Char) :=
  (toArabicNumbers_char_map "a1").2.2.1 'ا' (by decide)

/-- C10 (confirmed): `getTextDirection` returns rtl iff `containsArabic`
holds, returns ltr otherwise, and `containsArabic` holds iff some
character of the string lies in one of the Arabic Unicode ranges of the
source regex. -/
theorem getTextDirection_rtl_iff (s : String) :
    (getTextDirection s = Dir.rtl ↔ containsArabic s = true) ∧
    (getTextDirection s = Dir.ltr ↔ containsArabic s = false) ∧
    (containsArabic s = true ↔ ∃ c ∈ s.data,
      (0x600 ≤ c.toNat ∧ c.toNat ≤ 0x6FF) ∨ (0x750 ≤ c.toNat ∧ c.toNat ≤ 0x77F) ∨
      (0x8A0 ≤ c.toNat ∧ c.toNat ≤ 0x8FF) ∨ (0xFB50 ≤ c.toNat ∧ c.toNat ≤ 0xFDFF) ∨
      (0xFE70 ≤ c.toNat ∧ c.toNat ≤ 0xFEFF)) := by
  refine ⟨?_, ?_, ?_⟩
  · cases hc : containsArabic s <;> simp [getTextDirection, hc]
  · cases hc : containsArabic s <;> simp [getTextDirection, hc]
  · simp [containsArabic, isArabicChar, List.any_eq_true]

/-- C1 counterexample: minute 750 (12:30) is exactly the far edge of the
dhuhr anchor's 15-minute buffer — the buffered window is [720, 750), so
under the claimed half-open semantics 750 lies outside it — yet
`isDuringPrayerTime` flags it, because the source compares with an
inclusive `Math.abs(currentTime - prayerTime) <= buffer`. -/
theorem bufferFarEdge_flagged :
    bufferedWindow dhuhrInstance = ⟨720, 750, "Asia/Dubai"⟩ ∧
    isDuringPrayerTime 750 = true := by
  exact ⟨rfl, by decide⟩

/-- C1 (corrected, amended): the modelled `overlaps` has half-open
semantics — windows that merely touch (`a.end = b.start`) never
conflict — but the prayer-time check of the source is inclusive: a clock
time at distance exactly `buffer` (15 minutes) from an anchor, i.e. at
the far edge of the buffered window, is flagged. -/
theorem touching_never_overlap_but_edge_flagged (a b : TimeWindow) (t p : Int)
    (hab : a.stop = b.start) (htp : (t - p).natAbs = buffer) :
    overlaps a b = false ∧ withinBuffer t p = true := by
  constructor
  · simp [overlaps, ← hab]
  · simp [withinBuffer, htp]

/-- C1 witness: touching windows [0,10) and [10,20) do not overlap, and
minute 750 at distance exactly 15 from the dhuhr anchor 735 is within
the buffer. -/
theorem touching_edge_witness :
    overlaps ⟨0, 10, "UTC"⟩ ⟨10, 20, "UTC"⟩ = false ∧ withinBuffer 750 735 = true :=
  touching_never_overlap_but_edge_flagged ⟨0, 10, "UTC"⟩ ⟨10, 20, "UTC"⟩ 750 735 rfl (by decide)

/-- C2 counterexample: the source `isDuringPrayerTime()` takes no
explicit inputs — its only input is the global clock reading
(`new Date()`), made explicit here as the minutes-of-day argument.  Two
runs with the same (empty) explicit inputs, one with the clock at 12:15
and one with the clock at 10:00, return different results, so the result
is not independent of when the check executes. -/
theorem clock_dependence_counterexample :
    isDuringPrayerTime 735 = true ∧ isDuringPrayerTime 600 = false := by
  decide

/-- C2 (corrected, amended): `isDuringPrayerTime` does read the global
clock; its result is a function of the clock state at execution time and
genuinely varies with it (it is not a constant of the empty explicit
input), so determinism holds only once the clock reading is treated as
an input. -/
theorem clock_dependence : ∃ t1 t2 : Nat, isDuringPrayerTime t1 ≠ isDuringPrayerTime t2 :=
  ⟨735, 600, by decide⟩

/-- C4 (confirmed): the modelled `overlaps` is symmetric on
non-degenerate windows, and the source's distance comparison
`Math.abs(currentTime - prayerTime) <= buffer` gives the same answer
when the clock time and the anchor time are exchanged. -/
theorem overlaps_symm_and_buffer_symm (a b : TimeWindow) (t p : Int)
    (ha : a.start < a.stop) (hb : b.start < b.stop) :
    overlaps a b = overlaps b a ∧ withinBuffer t p = withinBuffer p t := by
  constructor
  · unfold overlaps
    exact decide_eq_decide.mpr and_comm
  · have h : (t - p).natAbs = (p - t).natAbs := by omega
    unfold withinBuffer
    rw [h]

/-- C4 witness: symmetry at the concrete windows [0,10) and [5,20) and
at the concrete clock/anchor pair (100, 200). -/
theorem overlaps_symm_witness :
    overlaps ⟨0, 10, "UTC"⟩ ⟨5, 20, "UTC"⟩ = overlaps ⟨5, 20, "UTC"⟩ ⟨0, 10, "UTC"⟩ ∧
    withinBuffer 100 200 = withinBuffer 200 100 :=
  overlaps_symm_and_buffer_symm ⟨0, 10, "UTC"⟩ ⟨5, 20, "UTC"⟩ 100 200 (by decide) (by decide)

/-- C3 (confirmed): with the PrayerWindow instance anchored at 12:15
Dubai time (Block policy, 15-minute buffers, buffered window
[12:00, 12:30)), evaluating the proposed 12:00–12:10 meeting window
yields outcome Blocked with exactly the one conflict entry; and every
clock minute in [12:00, 12:10] is flagged by the source's
`isDuringPrayerTime`. -/
theorem noon_meeting_blocked :
    (evaluate noonMeeting [dhuhrInstance]).outcome = Outcome.Blocked ∧
    (evaluate noonMeeting [dhuhrInstance]).conflicts = [dhuhrInstance] ∧
    (∀ t : Nat, 720 ≤ t → t ≤ 730 → isDuringPrayerTime t = true) := by
  refine ⟨by decide, by decide, ?_⟩
  intro t h1 h2
  simp only [isDuringPrayerTime, prayerTimes, withinBuffer, buffer, List.any_cons,
    List.any_nil, Bool.or_eq_true, Bool.or_false, decide_eq_true_eq]
  omega

/-- C3 witness: the clock minute 725 (12:05), inside the proposed
window, is flagged. -/
theorem noon_meeting_witness : isDuringPrayerTime 725 = true :=
  noon_meeting_blocked.2.2 725 (by decide) (by decide)

/-- C5 (confirmed): Block dominance — whenever some instance of the
catalog has Block severity and its buffer-expanded window overlaps the
(possibly Ramadan-trimmed) proposed window, the decision outcome is
Blocked, regardless of every other instance. -/
theorem block_dominates (w : TimeWindow) (insts : List ObservanceInstance)
    (i : ObservanceInstance) (hmem : i ∈ insts)
    (hsev : i.policy.severity = Severity.Block)
    (hov : overlaps (bufferedWindow i) (checkedWindow w insts) = true) :
    (evaluate w insts).outcome = Outcome.Blocked := by
  have hi : i ∈ conflictsOf w insts := List.mem_filter.mpr ⟨hmem, hov⟩
  have hany :
      (conflictsOf w insts).any (fun j => decide (j.policy.severity = Severity.Block)) = true :=
    List.any_eq_true.mpr ⟨i, hi, by simp [hsev]⟩
  show outcomeOf w insts = Outcome.Blocked
  simp [outcomeOf, hany]

/-- C5 witness: a window overlapped by one Warn instance and one Block
instance is Blocked. -/
theorem block_dominates_witness :
    (evaluate ⟨1040, 1060, "UTC"⟩ [warnInstance, holidayInstance]).outcome = Outcome.Blocked :=
  block_dominates ⟨1040, 1060, "UTC"⟩ [warnInstance, holidayInstance] holidayInstance
    (by decide) rfl (by decide)

/-- C6 (confirmed): a requested window with `start ≥ end` or an
unrecognized zone fails construction with InvalidWindow and the API
boundary answers 400 without ever evaluating it; conversely any window
that construction yields satisfies the `start < end` invariant and only
then is evaluation applied. -/
theorem invalid_window_rejected (s e : Int) (z : String) (insts : List ObservanceInstance) :
    ((e ≤ s ∨ recognizedZones.contains z = false) →
      mkTimeWindow s e z = Except.error EngineError.InvalidWindow ∧
      scheduleCheck s e z insts = ⟨400, none⟩) ∧
    (∀ w : TimeWindow, mkTimeWindow s e z = Except.ok w →
      w.start < w.stop ∧ scheduleCheck s e z insts = ⟨200, some (evaluate w insts)⟩) := by
  constructor
  · intro h
    have hcond : ¬((decide (s < e) && recognizedZones.contains z) = true) := by
      intro hc
      have h2 := (Bool.and_eq_true _ _).mp hc
      rcases h with h | h
      · exact absurd (of_decide_eq_true h2.1) (not_lt.mpr h)
      · rw [h] at h2
        exact absurd h2.2 (by decide)
    constructor
    · unfold mkTimeWindow
      rw [if_neg hcond]
    · unfold scheduleCheck mkTimeWindow
      rw [if_neg hcond]
  · intro w hw
    by_cases hcond : (decide (s < e) && recognizedZones.contains z) = true
    · have hse : s < e := of_decide_eq_true ((Bool.and_eq_true _ _).mp hcond).1
      unfold mkTimeWindow at hw
      rw [if_pos hcond] at hw
      injection hw with hw2
      subst hw2
      refine ⟨hse, ?_⟩
      unfold scheduleCheck mkTimeWindow
      rw [if_pos hcond]
    · exfalso
      unfold mkTimeWindow at hw
      rw [if_neg hcond] at hw
      exact Except.noConfusion hw

/-- C6 witness: the degenerate request (start 10, end 5, zone
Asia/Dubai) is rejected at construction and surfaces as a 400. -/
theorem invalid_window_witness :
    mkTimeWindow 10 5 "Asia/Dubai" = Except.error EngineError.InvalidWindow ∧
    scheduleCheck 10 5 "Asia/Dubai" [] = ⟨400, none⟩ :=
  (invalid_window_rejected 10 5 "Asia/Dubai" []).1 (Or.inl (by decide))

/-- C7 (confirmed): the batch rescan returns exactly one entry per
booking in the caller's input order; each entry is the independent
evaluation of its own booking, so replacing (e.g. breaking) booking `i`
leaves every other entry unchanged; and a booking whose expansion fails
yields a distinguishable error entry at its own position. -/
theorem rescan_order_and_isolation
    (expand : TimeWindow → Except String (List ObservanceInstance)) (bs : List Booking) :
    (rescan expand bs).length = bs.length ∧
    (∀ i : Nat, (rescan expand bs).get? i =
      (bs.get? i).map (fun b => (b.id, evalBooking expand b))) ∧
    (∀ i j : Nat, ∀ b : Booking, i ≠ j →
      (rescan expand (bs.set i b)).get? j = (rescan expand bs).get? j) ∧
    (∀ i : Nat, ∀ b : Booking, ∀ msg : String, bs.get? i = some b →
      expand b.window = Except.error msg →
      (rescan expand bs).get? i = some (b.id, Except.error msg)) := by
  have key : ∀ (l : List Booking) (i : Nat), (rescan expand l).get? i =
      (l.get? i).map (fun b => (b.id, evalBooking expand b)) := by
    intro l i
    simp [rescan]
  refine ⟨by simp [rescan], key bs, ?_, ?_⟩
  · intro i j b hij
    rw [key, key]
    congr 1
    exact List.get?_set_ne _ _ hij
  · intro i b msg hb hee
    rw [key, hb]
    show some (b.id, evalBooking expand b) = some (b.id, Except.error msg)
    unfold evalBooking
    rw [hee]

/-- C7 witness: in the concrete three-booking batch whose middle booking
breaks the expansion collaborator, the middle entry is the error entry
(order preserved, batch not aborted). -/
theorem rescan_witness :
    (rescan demoExpand demoBookings).get? 1 = some (2, Except.error "unresolvable year") :=
  (rescan_order_and_isolation demoExpand demoBookings).2.2.2 1 ⟨2, ⟨-5, 10, "UTC"⟩, []⟩
    "unresolvable year" (by decide) (by simp [demoExpand])

end UaeWorkHub
